import Mathlib

/-!
Verification of the crowd event-platform storage layer.

Shallow embedding of the repository's JSON-file store (`server/database/db.js`),
its MongoDB counterpart (`server/database/mongoDatabase.js`) and the banking
codec and finance routes (country-aware validation, field-level encryption,
response masking).  JavaScript strings are Lean `String`s, JavaScript objects
with dynamic keys are association lists, timestamps are milliseconds since the
epoch (`Nat`), `Math.random`-generated identifiers and `Date.now()` are passed
as explicit parameters, and `fs.writeJson` is modelled as always succeeding.
-/

set_option autoImplicit false

namespace Crowd

/-- JavaScript truthiness of an optional string-valued field: an absent key
(`undefined`) and the empty string are falsy, as in `!accountData[field]`. -/
def jsTruthy : Option String → Bool
  | none => false
  | some s => !(s == "")

/-- Field lookup in a JavaScript object, modelled as the first binding of the
key in an association list. -/
def lookupField (data : List (String × String)) (f : String) : Option String :=
  (data.find? (fun kv => kv.1 == f)).map (fun kv => kv.2)

/-- JavaScript `s.toLowerCase()` on the ASCII range, as a character-wise map
(executable, unlike `String.toLower`'s position-based implementation). -/
def jsToLowerCase (s : String) : String :=
  String.mk (s.data.map Char.toLower)

/-- JavaScript `s.slice(-n)`: the last `n` characters, or the whole string when
it is shorter than `n`. -/
def sliceLast (s : String) (n : Nat) : String :=
  String.mk (s.data.drop (s.data.length - n))

/-- JavaScript `s.slice(0, n)`: the first `n` characters. -/
def sliceTo (s : String) (n : Nat) : String :=
  String.mk (s.data.take n)

theorem string_data_append (a b : String) : (a ++ b).data = a.data ++ b.data :=
  rfl

theorem string_mk_data (s : String) : String.mk s.data = s :=
  rfl

/-!
Banking codec encryption (`server/routes/finance.js`, the unnamed router
source).  The route builds an `aes-256-cbc` cipher with
`crypto.createCipher(ENCRYPTION_ALGORITHM, ENCRYPTION_KEY)`.  `createCipher`
(as opposed to `createCipheriv`) derives both key and iv from the password
alone, so for the fixed process key the cipher pipeline is one deterministic
pair of total functions on strings; `dec_enc` is the crypto library's
guarantee that deciphering inverts enciphering under the same key.  The
16-byte iv generated by `crypto.randomBytes(16)` is never given to the
cipher, which is why it is not an argument of `enc`.
-/

structure CipherCore where
  enc : String → String
  dec : String → String
  dec_enc : ∀ s, dec (enc s) = s

/-- `encrypt(text)` from the finance router: generate a random iv (passed here
as the explicit parameter `ivHex`, already hex-encoded), encipher the text
with `createCipher`, and persist `iv.toString('hex') + ':' + encrypted`. -/
def encrypt (c : CipherCore) (ivHex : String) (text : String) : String :=
  ivHex ++ ":" ++ c.enc text

/-- The part of a stored value after its first colon, reassembled exactly the
way `decrypt` does: `text.split(':')`, `shift()` off the iv, `join(':')` the
rest. -/
def storedCiphertext (text : String) : String :=
  String.mk (List.intercalate [':'] ((text.data.splitOn ':').tail))

/-- `decrypt(text)` from the finance router: split off the stored iv (which
`createDecipher` then never uses) and decipher the remaining hex. -/
def decrypt (c : CipherCore) (text : String) : String :=
  c.dec (storedCiphertext text)

theorem storedCiphertext_append (ivHex r : String) (hiv : ':' ∉ ivHex.data) :
    storedCiphertext (ivHex ++ ":" ++ r) = r := by
  unfold storedCiphertext
  have hdata : (ivHex ++ ":" ++ r).data = ivHex.data ++ ':' :: r.data := by
    rw [String.data_append, String.data_append]
    show ivHex.data ++ [':'] ++ r.data = _
    rw [List.append_assoc]
    rfl
  rw [hdata]
  have hsplit : (ivHex.data ++ ':' :: r.data).splitOn ':' =
      ivHex.data :: r.data.splitOn ':' := by
    have := List.splitOnP_first (fun c => c == ':') ivHex.data
      (fun x hx => by
        intro hbeq
        exact hiv ((eq_of_beq hbeq) ▸ hx)) ':' (by simp) r.data
    simpa [List.splitOn] using this
  rw [hsplit]
  simp only [List.tail_cons]
  rw [List.intercalate_splitOn]

/-- A concrete cipher instance (reversal) used only to evaluate the embedding
on closed inputs. -/
def demoCipher : CipherCore where
  enc s := String.mk s.data.reverse
  dec s := String.mk s.data.reverse
  dec_enc s := by simp [string_mk_data]

/-- C4: for every string `x` (in particular every non-empty one, and every one
containing `':'`), `decrypt (encrypt x) = x`: the stored value is
`ivHex:ciphertext`, splitting on `':'` and rejoining the tail recovers the
ciphertext exactly because the hex-encoded iv contains no colon, and
deciphering inverts enciphering. -/
theorem C4_decrypt_encrypt (c : CipherCore) (ivHex x : String)
    (hiv : ':' ∉ ivHex.data) :
    decrypt c (encrypt c ivHex x) = x := by
  unfold decrypt encrypt
  rw [storedCiphertext_append _ _ hiv, c.dec_enc]

/-- Witness for C4: the round trip evaluated at a colon-containing plaintext
and a concrete hex iv. -/
theorem C4_decrypt_encrypt_witness :
    decrypt demoCipher (encrypt demoCipher "0f1e2d3c" "4111:1111") = "4111:1111" :=
  C4_decrypt_encrypt demoCipher "0f1e2d3c" "4111:1111" (by decide)

/-- C5 (divergence witness): the code generates and stores a random iv but
`crypto.createCipher`/`createDecipher` never use it.  Consequently the
ciphertext portion of the persisted string is the same for any two ivs (two
encryptions of one plaintext differ only in the iv prefix), and replacing the
stored iv does not change the decryption result — contradicting the claim
that the ciphertext depends on the random iv and that decryption uses the
stored iv. -/
theorem C5_iv_ignored (c : CipherCore) (iv1 iv2 x r : String)
    (h1 : ':' ∉ iv1.data) (h2 : ':' ∉ iv2.data) :
    storedCiphertext (encrypt c iv1 x) = storedCiphertext (encrypt c iv2 x) ∧
    decrypt c (iv1 ++ ":" ++ r) = decrypt c (iv2 ++ ":" ++ r) := by
  constructor
  · unfold encrypt
    rw [storedCiphertext_append _ _ h1, storedCiphertext_append _ _ h2]
  · unfold decrypt
    rw [storedCiphertext_append _ _ h1, storedCiphertext_append _ _ h2]

/-- Witness for C5 at concrete ivs, plaintext and stored ciphertext. -/
theorem C5_iv_ignored_witness :
    storedCiphertext (encrypt demoCipher "00000000000000000000000000000000" "4111111111111111") =
      storedCiphertext (encrypt demoCipher "ffffffffffffffffffffffffffffffff" "4111111111111111") ∧
    decrypt demoCipher ("00000000000000000000000000000000" ++ ":" ++ "deadbeef") =
      decrypt demoCipher ("ffffffffffffffffffffffffffffffff" ++ ":" ++ "deadbeef") :=
  C5_iv_ignored demoCipher _ _ "4111111111111111" "deadbeef" (by decide) (by decide)

/-!
Country-aware bank-account validation (finance router).  Field registry and
format checks; JavaScript regular expressions are translated to executable
character-list matchers.  `Object.entries` iterates in insertion order, so the
per-country pattern tables are ordered lists.
-/

structure CountrySchema where
  required : List String
  optionalFields : List String
deriving DecidableEq, Repr

/-- `BANK_ACCOUNT_FIELDS.DEFAULT`: schema applied to countries with no entry
of their own. -/
def DEFAULT_FIELDS : CountrySchema :=
  ⟨["accountHolderName", "accountNumber", "bankName", "country"],
   ["swiftCode", "iban", "routingCode", "address"]⟩

/-- `BANK_ACCOUNT_FIELDS` from the finance router. -/
def BANK_ACCOUNT_FIELDS : List (String × CountrySchema) :=
  [("US", ⟨["accountHolderName", "routingNumber", "accountNumber", "accountType", "bankName"],
           ["swiftCode", "address"]⟩),
   ("UK", ⟨["accountHolderName", "sortCode", "accountNumber", "bankName"],
           ["swiftCode", "iban", "address"]⟩),
   ("CA", ⟨["accountHolderName", "institutionNumber", "transitNumber", "accountNumber", "bankName"],
           ["swiftCode", "address"]⟩),
   ("AU", ⟨["accountHolderName", "bsb", "accountNumber", "bankName"],
           ["swiftCode", "address"]⟩),
   ("DE", ⟨["accountHolderName", "iban", "bic", "bankName"], ["address"]⟩),
   ("FR", ⟨["accountHolderName", "iban", "bic", "bankName"], ["address"]⟩),
   ("IN", ⟨["accountHolderName", "accountNumber", "ifscCode", "bankName"],
           ["swiftCode", "address", "panNumber"]⟩),
   ("PK", ⟨["accountHolderName", "accountNumber", "bankName", "branchCode"],
           ["swiftCode", "iban", "address", "cnic"]⟩),
   ("JP", ⟨["accountHolderName", "bankCode", "branchCode", "accountNumber", "bankName"],
           ["swiftCode", "address"]⟩),
   ("CN", ⟨["accountHolderName", "accountNumber", "bankName", "cityCode"],
           ["swiftCode", "address"]⟩),
   ("BR", ⟨["accountHolderName", "bankCode", "agencyNumber", "accountNumber", "bankName"],
           ["swiftCode", "address", "cpfCnpj"]⟩),
   ("MX", ⟨["accountHolderName", "clabe", "bankName"], ["swiftCode", "address", "rfc"]⟩),
   ("DEFAULT", DEFAULT_FIELDS)]

/-- The country codes with their own field entry (everything but the
`DEFAULT` fallback), as served by `GET /supported-countries`. -/
def registeredCountries : List String :=
  ["US", "UK", "CA", "AU", "DE", "FR", "IN", "PK", "JP", "CN", "BR", "MX"]

/-- Matcher for a JS regex of shape `^\d{n}$`. -/
def digitsExactly (n : Nat) (s : String) : Bool :=
  s.data.length == n && s.data.all Char.isDigit

/-- Matcher for a JS regex of shape `^\d{lo,hi}$`. -/
def digitsBetween (lo hi : Nat) (s : String) : Bool :=
  decide (lo ≤ s.data.length) && decide (s.data.length ≤ hi) && s.data.all Char.isDigit

/-- JS `\s`: ECMAScript WhiteSpace and LineTerminator characters. -/
def isJsWhitespace (c : Char) : Bool :=
  c == ' ' || c == '\t' || c == '\n' || c == '\r' ||
  c.val == 0x0b || c.val == 0x0c || c.val == 0xa0 || c.val == 0x1680 ||
  (0x2000 ≤ c.val && c.val ≤ 0x200a) ||
  c.val == 0x2028 || c.val == 0x2029 || c.val == 0x202f ||
  c.val == 0x205f || c.val == 0x3000 || c.val == 0xfeff

/-- Consume exactly `n` digits. -/
def chompDigits : Nat → List Char → Option (List Char)
  | 0, cs => some cs
  | _ + 1, [] => none
  | n + 1, c :: cs => if c.isDigit then chompDigits n cs else none

/-- `\s?` followed by a digit: the optional whitespace is consumed exactly
when present, since `\d` cannot match it. -/
def chompOptSpace : List Char → List Char
  | [] => []
  | c :: cs => if isJsWhitespace c then cs else c :: cs

/-- Consume a sequence of `\s?\d{n}` groups. -/
def chompSpacedDigitGroups : List Nat → List Char → Option (List Char)
  | [], cs => some cs
  | n :: ns, cs =>
    match chompDigits n (chompOptSpace cs) with
    | none => none
    | some r => chompSpacedDigitGroups ns r

/-- `^\d{2}-\d{2}-\d{2}$` (UK sort code). -/
def ukSortCodePattern (s : String) : Bool :=
  match s.data with
  | [a, b, h1, c, d, h2, e, f] =>
    a.isDigit && b.isDigit && h1 == '-' && c.isDigit && d.isDigit &&
      h2 == '-' && e.isDigit && f.isDigit
  | _ => false

/-- `^DE\d{2}\s?\d{4}\s?\d{4}\s?\d{4}\s?\d{4}\s?\d{2}$`. -/
def deIbanPattern (s : String) : Bool :=
  match s.data with
  | 'D' :: 'E' :: rest =>
    ((chompDigits 2 rest).bind (chompSpacedDigitGroups [4, 4, 4, 4, 2])) == some []
  | _ => false

/-- `^FR\d{2}\s?\d{4}\s?\d{4}\s?\d{4}\s?\d{4}\s?\d{4}\s?\d{2}$`. -/
def frIbanPattern (s : String) : Bool :=
  match s.data with
  | 'F' :: 'R' :: rest =>
    ((chompDigits 2 rest).bind (chompSpacedDigitGroups [4, 4, 4, 4, 4, 2])) == some []
  | _ => false

/-- `^[A-Z]{6}[A-Z0-9]{2}([A-Z0-9]{3})?$` (BIC). -/
def bicPattern (s : String) : Bool :=
  (s.data.length == 8 || s.data.length == 11) &&
  (s.data.take 6).all Char.isUpper &&
  (s.data.drop 6).all (fun c => c.isUpper || c.isDigit)

/-- `^[A-Z]{4}0[A-Z0-9]{6}$` (India IFSC). -/
def inIfscCodePattern (s : String) : Bool :=
  match s.data with
  | [a, b, c, d, z, e, f, g, h, i, j] =>
    a.isUpper && b.isUpper && c.isUpper && d.isUpper && z == '0' &&
      (e.isUpper || e.isDigit) && (f.isUpper || f.isDigit) &&
      (g.isUpper || g.isDigit) && (h.isUpper || h.isDigit) &&
      (i.isUpper || i.isDigit) && (j.isUpper || j.isDigit)
  | _ => false

/-- `^[A-Z]{5}\d{4}[A-Z]$` (India PAN). -/
def inPanNumberPattern (s : String) : Bool :=
  match s.data with
  | [a, b, c, d, e, w, x, y, z, f] =>
    a.isUpper && b.isUpper && c.isUpper && d.isUpper && e.isUpper &&
      w.isDigit && x.isDigit && y.isDigit && z.isDigit && f.isUpper
  | _ => false

/-- `^\d{5}-\d{7}-\d$` (Pakistan CNIC). -/
def pkCnicPattern (s : String) : Bool :=
  match s.data with
  | [a, b, c, d, e, h1, f, g, h, i, j, k, l, h2, m] =>
    a.isDigit && b.isDigit && c.isDigit && d.isDigit && e.isDigit &&
      h1 == '-' && f.isDigit && g.isDigit && h.isDigit && i.isDigit &&
      j.isDigit && k.isDigit && l.isDigit && h2 == '-' && m.isDigit
  | _ => false

/-- `VALIDATION_PATTERNS` from the finance router, in `Object.entries`
(insertion) order. -/
def VALIDATION_PATTERNS : List (String × List (String × (String → Bool))) :=
  [("US", [("routingNumber", digitsExactly 9), ("accountNumber", digitsBetween 4 20)]),
   ("UK", [("sortCode", ukSortCodePattern), ("accountNumber", digitsExactly 8)]),
   ("CA", [("institutionNumber", digitsExactly 3), ("transitNumber", digitsExactly 5),
           ("accountNumber", digitsBetween 7 12)]),
   ("AU", [("bsb", digitsExactly 6), ("accountNumber", digitsBetween 6 9)]),
   ("DE", [("iban", deIbanPattern), ("bic", bicPattern)]),
   ("FR", [("iban", frIbanPattern), ("bic", bicPattern)]),
   ("IN", [("accountNumber", digitsBetween 9 18), ("ifscCode", inIfscCodePattern),
           ("panNumber", inPanNumberPattern)]),
   ("PK", [("accountNumber", digitsBetween 10 16), ("branchCode", digitsExactly 4),
           ("cnic", pkCnicPattern)])]

/-- `BANK_ACCOUNT_FIELDS[country] || BANK_ACCOUNT_FIELDS['DEFAULT']`. -/
def countrySchema (country : String) : CountrySchema :=
  ((BANK_ACCOUNT_FIELDS.find? (fun kv => kv.1 == country)).map (fun kv => kv.2)).getD
    DEFAULT_FIELDS

/-- `VALIDATION_PATTERNS[country] || {}`. -/
def countryPatterns (country : String) : List (String × (String → Bool)) :=
  ((VALIDATION_PATTERNS.find? (fun kv => kv.1 == country)).map (fun kv => kv.2)).getD []

/-- `fields.required.filter(field => !accountData[field])`. -/
def missingRequired (country : String) (accountData : List (String × String)) : List String :=
  (countrySchema country).required.filter (fun f => !(jsTruthy (lookupField accountData f)))

/-- The first `[field, pattern]` entry whose field is present (truthy) in the
data but fails its pattern — the entry at which the source's `for` loop
returns. -/
def firstBadPattern (country : String) (accountData : List (String × String)) :
    Option (String × (String → Bool)) :=
  (countryPatterns country).find?
    (fun fp => jsTruthy (lookupField accountData fp.1) &&
      !(fp.2 ((lookupField accountData fp.1).getD "")))

structure ValidationResult where
  valid : Bool
  error : Option String
deriving DecidableEq, Repr

/-- `validateBankAccount(country, accountData)` from the finance router. -/
def validateBankAccount (country : String) (accountData : List (String × String)) :
    ValidationResult :=
  let missingFields := missingRequired country accountData
  if missingFields.length > 0 then
    ⟨false, some ("Missing required fields: " ++ String.intercalate ", " missingFields)⟩
  else
    match firstBadPattern country accountData with
    | some fp => ⟨false, some ("Invalid format for " ++ fp.1)⟩
    | none => ⟨true, none⟩

/-- `const { country, isPrimary, ...accountData } = req.body`: the rest object
holds every key of the body except `country` and `isPrimary`. -/
def bodyRest (body : List (String × String)) : List (String × String) :=
  body.filter (fun kv => !(kv.1 == "country") && !(kv.1 == "isPrimary"))

inductive PostValidationOutcome where
  | countryRequired
  | validationFailed (error : String)
  | validated (country : String) (accountData : List (String × String))
deriving DecidableEq, Repr

/-- The validation stage of `POST /bank-accounts`: destructure the body, 400
with `Country is required` when `country` is falsy, then run
`validateBankAccount` on the rest object and 400 with its error when invalid;
only a `validated` outcome proceeds to encryption and `createBankAccount`. -/
def postBankAccountsValidate (body : List (String × String)) : PostValidationOutcome :=
  let country := lookupField body "country"
  if !(jsTruthy country) then .countryRequired
  else if (validateBankAccount (country.getD "") (bodyRest body)).valid then
    .validated (country.getD "") (bodyRest body)
  else
    .validationFailed ((validateBankAccount (country.getD "") (bodyRest body)).error.getD "")

theorem lookupField_bodyRest_country (body : List (String × String)) :
    lookupField (bodyRest body) "country" = none := by
  unfold lookupField
  rw [List.find?_eq_none.mpr, Option.map_none']
  intro kv hkv
  have := List.mem_filter.mp hkv
  intro hbeq
  rw [hbeq] at this
  simp [bodyRest] at this

theorem countrySchema_unlisted (c : String) (hn : c ∉ registeredCountries) :
    countrySchema c = DEFAULT_FIELDS := by
  by_cases hd : c = "DEFAULT"
  · subst hd; rfl
  · simp only [registeredCountries, List.mem_cons, not_or, List.not_mem_nil,
      not_false_eq_true, and_true] at hn
    obtain ⟨h1, h2, h3, h4, h5, h6, h7, h8, h9, h10, h11, h12⟩ := hn
    unfold countrySchema
    rw [show BANK_ACCOUNT_FIELDS.find? (fun kv => kv.1 == c) = none from ?_]
    · rfl
    · rw [List.find?_eq_none]
      intro kv hkv
      simp only [BANK_ACCOUNT_FIELDS, List.mem_cons, List.not_mem_nil, or_false] at hkv
      rcases hkv with h | h | h | h | h | h | h | h | h | h | h | h | h <;>
        (subst h;
         simp only [beq_iff_eq];
         intro hc)
      · exact h1 hc.symm
      · exact h2 hc.symm
      · exact h3 hc.symm
      · exact h4 hc.symm
      · exact h5 hc.symm
      · exact h6 hc.symm
      · exact h7 hc.symm
      · exact h8 hc.symm
      · exact h9 hc.symm
      · exact h10 hc.symm
      · exact h11 hc.symm
      · exact h12 hc.symm
      · exact hd hc.symm

/-- C10: for every request body whose `country` is a truthy string not listed
in the per-country field registry, `POST /bank-accounts` fails validation with
a missing-fields error that names `country` — the handler destructures the
`country` key out of the body before validating, while the `DEFAULT` schema
applied to unlisted countries requires a `country` field — so no bank account
with an unlisted country can be created through this route, for any body. -/
theorem C10_unlisted_country_unreachable (body : List (String × String))
    (hc : jsTruthy (lookupField body "country") = true)
    (hn : (lookupField body "country").getD "" ∉ registeredCountries) :
    postBankAccountsValidate body =
      .validationFailed ("Missing required fields: " ++ String.intercalate ", "
        (missingRequired ((lookupField body "country").getD "") (bodyRest body))) ∧
    "country" ∈ missingRequired ((lookupField body "country").getD "") (bodyRest body) ∧
    ∀ c d, postBankAccountsValidate body ≠ .validated c d := by
  set c := (lookupField body "country").getD "" with hcdef
  have hmem : "country" ∈ missingRequired c (bodyRest body) := by
    unfold missingRequired
    rw [countrySchema_unlisted c hn]
    apply List.mem_filter.mpr
    refine ⟨by simp [DEFAULT_FIELDS], ?_⟩
    rw [lookupField_bodyRest_country]
    rfl
  have hinvalid : validateBankAccount c (bodyRest body) =
      ⟨false, some ("Missing required fields: " ++ String.intercalate ", "
        (missingRequired c (bodyRest body)))⟩ := by
    unfold validateBankAccount
    rw [if_pos]
    exact List.length_pos.mpr (List.ne_nil_of_mem hmem)
  have hpost : postBankAccountsValidate body =
      .validationFailed ("Missing required fields: " ++ String.intercalate ", "
        (missingRequired c (bodyRest body))) := by
    simp only [postBankAccountsValidate, ← hcdef, hinvalid, hc]
    simp
  refine ⟨hpost, hmem, ?_⟩
  intro c' d' h
  rw [hpost] at h
  exact PostValidationOutcome.noConfusion h

/-- Witness for C10: a body for country `ZZ` (unlisted) that supplies every
`DEFAULT` field it can still fails, naming `country` among the missing
fields. -/
theorem C10_unlisted_country_unreachable_witness :
    postBankAccountsValidate
      [("country", "ZZ"), ("accountHolderName", "Jo"), ("accountNumber", "123"),
       ("bankName", "B")] =
      .validationFailed ("Missing required fields: " ++ String.intercalate ", "
        (missingRequired "ZZ"
          (bodyRest [("country", "ZZ"), ("accountHolderName", "Jo"),
            ("accountNumber", "123"), ("bankName", "B")]))) ∧
    "country" ∈ missingRequired "ZZ"
      (bodyRest [("country", "ZZ"), ("accountHolderName", "Jo"),
        ("accountNumber", "123"), ("bankName", "B")]) ∧
    ∀ c d, postBankAccountsValidate
      [("country", "ZZ"), ("accountHolderName", "Jo"), ("accountNumber", "123"),
       ("bankName", "B")] ≠ .validated c d :=
  C10_unlisted_country_unreachable
    [("country", "ZZ"), ("accountHolderName", "Jo"), ("accountNumber", "123"),
     ("bankName", "B")] (by decide) (by decide)

theorem digitsExactly_iff (n : Nat) (v : String) :
    digitsExactly n v = true ↔ v.data.length = n ∧ ∀ ch ∈ v.data, ch.isDigit = true := by
  simp [digitsExactly, List.all_eq_true]

theorem ukSortCodePattern_iff (v : String) :
    ukSortCodePattern v = true ↔
      ∃ d1 d2 d3 d4 d5 d6 : Char,
        (d1.isDigit ∧ d2.isDigit ∧ d3.isDigit ∧ d4.isDigit ∧ d5.isDigit ∧ d6.isDigit) ∧
        v = String.mk [d1, d2, '-', d3, d4, '-', d5, d6] := by
  obtain ⟨l⟩ := v
  constructor
  · intro h
    rcases l with _ | ⟨a, _ | ⟨b, _ | ⟨x, _ | ⟨c, _ | ⟨d, _ | ⟨y, _ | ⟨e, _ | ⟨f,
      _ | ⟨g, rest⟩⟩⟩⟩⟩⟩⟩⟩⟩ <;>
      simp [ukSortCodePattern, and_assoc] at h
    obtain ⟨ha, hb, hx, hc, hd, hy, he, hf⟩ := h
    subst hx; subst hy
    exact ⟨a, b, c, d, e, f, ⟨ha, hb, hc, hd, he, hf⟩, rfl⟩
  · rintro ⟨d1, d2, d3, d4, d5, d6, ⟨h1, h2, h3, h4, h5, h6⟩, hv⟩
    rw [hv]
    simp [ukSortCodePattern, h1, h2, h3, h4, h5, h6]

theorem inIfscCodePattern_iff (v : String) :
    inIfscCodePattern v = true ↔
      ∃ l1 l2 l3 l4 a1 a2 a3 a4 a5 a6 : Char,
        (l1.isUpper ∧ l2.isUpper ∧ l3.isUpper ∧ l4.isUpper) ∧
        ((a1.isUpper ∨ a1.isDigit) ∧ (a2.isUpper ∨ a2.isDigit) ∧
         (a3.isUpper ∨ a3.isDigit) ∧ (a4.isUpper ∨ a4.isDigit) ∧
         (a5.isUpper ∨ a5.isDigit) ∧ (a6.isUpper ∨ a6.isDigit)) ∧
        v = String.mk [l1, l2, l3, l4, '0', a1, a2, a3, a4, a5, a6] := by
  obtain ⟨l⟩ := v
  constructor
  · intro h
    rcases l with _ | ⟨c1, _ | ⟨c2, _ | ⟨c3, _ | ⟨c4, _ | ⟨c5, _ | ⟨c6, _ | ⟨c7, _ | ⟨c8,
      _ | ⟨c9, _ | ⟨c10, _ | ⟨c11, _ | ⟨c12, rest⟩⟩⟩⟩⟩⟩⟩⟩⟩⟩⟩⟩ <;>
      simp [inIfscCodePattern, and_assoc] at h
    obtain ⟨h1, h2, h3, h4, h5, h6, h7, h8, h9, h10, h11⟩ := h
    subst h5
    exact ⟨c1, c2, c3, c4, c6, c7, c8, c9, c10, c11,
      ⟨h1, h2, h3, h4⟩, ⟨h6, h7, h8, h9, h10, h11⟩, rfl⟩
  · rintro ⟨l1, l2, l3, l4, a1, a2, a3, a4, a5, a6, ⟨h1, h2, h3, h4⟩,
      ⟨h5, h6, h7, h8, h9, h10⟩, hv⟩
    rw [hv]
    have hb5 : (a1.isUpper || a1.isDigit) = true := by rcases h5 with h | h <;> simp [h]
    have hb6 : (a2.isUpper || a2.isDigit) = true := by rcases h6 with h | h <;> simp [h]
    have hb7 : (a3.isUpper || a3.isDigit) = true := by rcases h7 with h | h <;> simp [h]
    have hb8 : (a4.isUpper || a4.isDigit) = true := by rcases h8 with h | h <;> simp [h]
    have hb9 : (a5.isUpper || a5.isDigit) = true := by rcases h9 with h | h <;> simp [h]
    have hb10 : (a6.isUpper || a6.isDigit) = true := by rcases h10 with h | h <;> simp [h]
    simp [inIfscCodePattern, h1, h2, h3, h4, hb5, hb6, hb7, hb8, hb9, hb10]

/-- C7: for every country and data object, `validateBankAccount` reports all
absent-or-empty required fields together in one MissingFields error; with all
required fields present it checks the registered patterns of the country
against the fields present and fails InvalidFormat naming the first offending
field; an unlisted country falls back to the `DEFAULT` field set; and the
registered US routing-number, UK sort-code and India IFSC patterns are
exactly nine digits, the shape DD-DD-DD, and four letters, a `0`, then six
alphanumerics, respectively. -/
theorem C7_validateBankAccount_spec (country : String)
    (accountData : List (String × String)) :
    ((∃ f ∈ (countrySchema country).required, jsTruthy (lookupField accountData f) = false) →
      validateBankAccount country accountData =
        ⟨false, some ("Missing required fields: " ++
          String.intercalate ", " (missingRequired country accountData))⟩ ∧
      ∀ f ∈ (countrySchema country).required,
        (f ∈ missingRequired country accountData ↔
          jsTruthy (lookupField accountData f) = false)) ∧
    ((∀ f ∈ (countrySchema country).required, jsTruthy (lookupField accountData f) = true) →
      ((∀ fp ∈ countryPatterns country,
          jsTruthy (lookupField accountData fp.1) = true →
          fp.2 ((lookupField accountData fp.1).getD "") = true) →
        validateBankAccount country accountData = ⟨true, none⟩) ∧
      (∀ fp, firstBadPattern country accountData = some fp →
        validateBankAccount country accountData =
          ⟨false, some ("Invalid format for " ++ fp.1)⟩)) ∧
    (country ∉ registeredCountries → countrySchema country = DEFAULT_FIELDS) ∧
    countryPatterns "US" =
      [("routingNumber", digitsExactly 9), ("accountNumber", digitsBetween 4 20)] ∧
    countryPatterns "UK" =
      [("sortCode", ukSortCodePattern), ("accountNumber", digitsExactly 8)] ∧
    (∀ v : String, digitsExactly 9 v = true ↔
      v.data.length = 9 ∧ ∀ ch ∈ v.data, ch.isDigit = true) ∧
    (∀ v : String, ukSortCodePattern v = true ↔
      ∃ d1 d2 d3 d4 d5 d6 : Char,
        (d1.isDigit ∧ d2.isDigit ∧ d3.isDigit ∧ d4.isDigit ∧ d5.isDigit ∧ d6.isDigit) ∧
        v = String.mk [d1, d2, '-', d3, d4, '-', d5, d6]) ∧
    (∀ v : String, inIfscCodePattern v = true ↔
      ∃ l1 l2 l3 l4 a1 a2 a3 a4 a5 a6 : Char,
        (l1.isUpper ∧ l2.isUpper ∧ l3.isUpper ∧ l4.isUpper) ∧
        ((a1.isUpper ∨ a1.isDigit) ∧ (a2.isUpper ∨ a2.isDigit) ∧
         (a3.isUpper ∨ a3.isDigit) ∧ (a4.isUpper ∨ a4.isDigit) ∧
         (a5.isUpper ∨ a5.isDigit) ∧ (a6.isUpper ∨ a6.isDigit)) ∧
        v = String.mk [l1, l2, l3, l4, '0', a1, a2, a3, a4, a5, a6]) := by
  refine ⟨?_, ?_, countrySchema_unlisted country, rfl, rfl,
    digitsExactly_iff 9, ukSortCodePattern_iff, inIfscCodePattern_iff⟩
  · rintro ⟨f, hf, habs⟩
    have hfm : f ∈ missingRequired country accountData :=
      List.mem_filter.mpr ⟨hf, by simp [habs]⟩
    have hne : missingRequired country accountData ≠ [] := List.ne_nil_of_mem hfm
    constructor
    · simp only [validateBankAccount]
      rw [if_pos (List.length_pos.mpr hne)]
    · intro g hg
      constructor
      · intro hgm
        have := (List.mem_filter.mp hgm).2
        simpa using this
      · intro habs'
        exact List.mem_filter.mpr ⟨hg, by simp [habs']⟩
  · intro hall
    have hmissnil : missingRequired country accountData = [] := by
      unfold missingRequired
      rw [List.filter_eq_nil_iff]
      intro f hf
      simp [hall f hf]
    constructor
    · intro hpat
      have hnone : firstBadPattern country accountData = none := by
        unfold firstBadPattern
        rw [List.find?_eq_none]
        intro fp hfp hcontra
        rw [Bool.and_eq_true] at hcontra
        rw [hpat fp hfp hcontra.1] at hcontra
        simp at hcontra
      simp [validateBankAccount, hmissnil, hnone]
    · intro fp hfp
      simp [validateBankAccount, hmissnil, hfp]

/-- Witness for C7: UK data with only the holder name present is rejected
with one error listing all three missing fields. -/
theorem C7_validateBankAccount_spec_witness :
    validateBankAccount "UK" [("accountHolderName", "A")] =
      ⟨false, some ("Missing required fields: " ++
        String.intercalate ", " (missingRequired "UK" [("accountHolderName", "A")]))⟩ ∧
    ∀ f ∈ (countrySchema "UK").required,
      (f ∈ missingRequired "UK" [("accountHolderName", "A")] ↔
        jsTruthy (lookupField [("accountHolderName", "A")] f) = false) :=
  (C7_validateBankAccount_spec "UK" [("accountHolderName", "A")]).1 (by decide)

/-!
The JSON-file store (`server/database/db.js`).  Each collection is the full
array parsed from its file; a store operation returns its result value
together with the collection as saved back.  Only the record fields the
store's own code reads or writes are modelled; unknown body keys spread onto
records are outside the model.
-/

structure BankAccount where
  id : String
  userId : String
  country : String
  isPrimary : Bool
  isActive : Bool
  createdAt : Nat
  updatedAt : Nat
  bankName : Option String
  accountNumber : Option String
  routingNumber : Option String
  sortCode : Option String
  iban : Option String
deriving DecidableEq, Repr

structure SimpleResult where
  success : Bool
  error : Option String
deriving DecidableEq, Repr

/-- The per-account mutation of `setPrimaryBankAccount`'s `forEach`: on the
user's active accounts set `isPrimary` to whether the id matches the target;
other accounts are untouched. -/
def setPrimaryUpdate (userId bankAccountId : String) (a : BankAccount) : BankAccount :=
  if a.userId == userId && a.isActive then
    { a with isPrimary := a.id == bankAccountId }
  else a

/-- `setPrimaryBankAccount(userId, bankAccountId)` from `db.js`: filter the
user's active accounts, fail with `Bank account not found` when the target is
not among them, otherwise set `isPrimary` on exactly those accounts to
whether their id matches the target (the JS `forEach` mutates objects shared
with the full array, which is then saved whole). -/
def setPrimaryBankAccount (bankAccounts : List BankAccount)
    (userId bankAccountId : String) : SimpleResult × List BankAccount :=
  let userAccounts := bankAccounts.filter (fun a => a.userId == userId && a.isActive)
  match userAccounts.find? (fun a => a.id == bankAccountId) with
  | none => (⟨false, some "Bank account not found"⟩, bankAccounts)
  | some _ => (⟨true, none⟩, bankAccounts.map (setPrimaryUpdate userId bankAccountId))

theorem setPrimaryUpdate_userId (uid bid : String) (a : BankAccount) :
    (setPrimaryUpdate uid bid a).userId = a.userId := by
  unfold setPrimaryUpdate
  by_cases h : (a.userId == uid && a.isActive) = true
  · rw [if_pos h]
  · rw [if_neg h]

theorem setPrimaryUpdate_isActive (uid bid : String) (a : BankAccount) :
    (setPrimaryUpdate uid bid a).isActive = a.isActive := by
  unfold setPrimaryUpdate
  by_cases h : (a.userId == uid && a.isActive) = true
  · rw [if_pos h]
  · rw [if_neg h]

theorem setPrimaryUpdate_id (uid bid : String) (a : BankAccount) :
    (setPrimaryUpdate uid bid a).id = a.id := by
  unfold setPrimaryUpdate
  by_cases h : (a.userId == uid && a.isActive) = true
  · rw [if_pos h]
  · rw [if_neg h]

theorem filter_active_map_setPrimaryUpdate (uid bid : String) :
    ∀ l : List BankAccount,
      (l.map (setPrimaryUpdate uid bid)).filter (fun a => a.userId == uid && a.isActive) =
        (l.filter (fun a => a.userId == uid && a.isActive)).map (setPrimaryUpdate uid bid) := by
  intro l
  induction l with
  | nil => rfl
  | cons a l ih =>
    have hpres : ((setPrimaryUpdate uid bid a).userId == uid &&
        (setPrimaryUpdate uid bid a).isActive) = (a.userId == uid && a.isActive) := by
      rw [setPrimaryUpdate_userId, setPrimaryUpdate_isActive]
    rw [List.map_cons]
    by_cases h : (a.userId == uid && a.isActive) = true
    · rw [List.filter_cons_of_pos (by rw [hpres]; exact h),
        List.filter_cons_of_pos (p := fun a : BankAccount => a.userId == uid && a.isActive) h,
        List.map_cons, ih]
    · rw [List.filter_cons_of_neg (by rw [hpres]; exact h),
        List.filter_cons_of_neg (p := fun a : BankAccount => a.userId == uid && a.isActive) h, ih]

theorem filter_primary_map_setPrimaryUpdate (uid bid : String) :
    ∀ ul : List BankAccount,
      (∀ a ∈ ul, (a.userId == uid && a.isActive) = true) →
      (ul.map (setPrimaryUpdate uid bid)).filter (fun a => a.isPrimary) =
        (ul.filter (fun a => a.id == bid)).map (setPrimaryUpdate uid bid) := by
  intro ul
  induction ul with
  | nil => intro _; rfl
  | cons a l ih =>
    intro h
    have ha := h a (List.mem_cons_self a l)
    have hrest := fun b hb => h b (List.mem_cons_of_mem a hb)
    have hprim : (setPrimaryUpdate uid bid a).isPrimary = (a.id == bid) := by
      unfold setPrimaryUpdate
      rw [if_pos ha]
    rw [List.map_cons]
    by_cases hid : (a.id == bid) = true
    · rw [List.filter_cons_of_pos (by rw [hprim]; exact hid),
        List.filter_cons_of_pos (p := fun a : BankAccount => a.id == bid) hid, List.map_cons, ih hrest]
    · rw [List.filter_cons_of_neg (by rw [hprim]; exact hid),
        List.filter_cons_of_neg (p := fun a : BankAccount => a.id == bid) hid, ih hrest]

theorem filter_eq_singleton_of_find? {α : Type} (key : α → String) (k : String) :
    ∀ (l : List α), (l.map key).Nodup →
      ∀ t, l.find? (fun a => key a == k) = some t →
        l.filter (fun a => key a == k) = [t] := by
  intro l
  induction l with
  | nil => intro _ t ht; simp at ht
  | cons a l ih =>
    intro hnd t ht
    rw [List.map_cons, List.nodup_cons] at hnd
    by_cases ha : key a = k
    · have hba : (key a == k) = true := by simp [ha]
      rw [List.find?_cons_of_pos (p := fun a => key a == k) _ hba] at ht
      have hta : a = t := by injection ht
      rw [List.filter_cons_of_pos (p := fun a => key a == k) hba, ← hta]
      have hnil : l.filter (fun a => key a == k) = [] := by
        rw [List.filter_eq_nil_iff]
        intro b hb hbk
        exact hnd.1 (by rw [ha, ← eq_of_beq hbk]; exact List.mem_map_of_mem key hb)
      rw [hnil]
    · have hba : (key a == k) = false := by simp [ha]
      rw [List.find?_cons_of_neg (p := fun a => key a == k) _ (by simp [hba])] at ht
      rw [List.filter_cons_of_neg (p := fun a => key a == k) (by simp [hba])]
      exact ih hnd.2 t ht

/-- C2: with distinct account ids, a successful `setPrimaryBankAccount`
leaves exactly one `isPrimary` account among the user's active accounts —
the target — whatever the collection looked like before; and the call fails
with the not-found error exactly when the target is not an active account of
that user. -/
theorem C2_setPrimaryBankAccount_spec (accounts : List BankAccount) (uid bid : String)
    (hids : (accounts.map (fun a => a.id)).Nodup) :
    ((setPrimaryBankAccount accounts uid bid).1.success = true →
      ((((setPrimaryBankAccount accounts uid bid).2.filter
          (fun a => a.userId == uid && a.isActive)).filter
            (fun a => a.isPrimary)).map (fun a => a.id)) = [bid]) ∧
    ((setPrimaryBankAccount accounts uid bid).1 = ⟨false, some "Bank account not found"⟩ ↔
      ¬ ∃ a ∈ accounts, a.userId = uid ∧ a.isActive = true ∧ a.id = bid) := by
  cases hfind : (accounts.filter (fun a => a.userId == uid && a.isActive)).find?
      (fun a => a.id == bid) with
  | none =>
    have hres : setPrimaryBankAccount accounts uid bid =
        (⟨false, some "Bank account not found"⟩, accounts) := by
      simp only [setPrimaryBankAccount]
      rw [hfind]
    rw [hres]
    constructor
    · intro hsucc; simp at hsucc
    · simp only [true_iff]
      rintro ⟨a, ha, h1, h2, h3⟩
      have hmem : a ∈ accounts.filter (fun a => a.userId == uid && a.isActive) :=
        List.mem_filter.mpr ⟨ha, by simp [h1, h2]⟩
      have hsome : ((accounts.filter (fun a => a.userId == uid && a.isActive)).find?
          (fun a => a.id == bid)).isSome :=
        List.find?_isSome.mpr ⟨a, hmem, by show (a.id == bid) = true; simp [h3]⟩
      rw [hfind] at hsome
      simp at hsome
  | some t =>
    have hres : setPrimaryBankAccount accounts uid bid =
        (⟨true, none⟩, accounts.map (setPrimaryUpdate uid bid)) := by
      simp only [setPrimaryBankAccount]
      rw [hfind]
    have hqt : t.id = bid := by have h := List.find?_some hfind; simpa using h
    have htmem := List.mem_of_find?_eq_some hfind
    have htp : (t.userId == uid && t.isActive) = true := (List.mem_filter.mp htmem).2
    rw [hres]
    constructor
    · intro _
      rw [filter_active_map_setPrimaryUpdate]
      rw [filter_primary_map_setPrimaryUpdate uid bid _
        (fun a ha => (List.mem_filter.mp ha).2)]
      rw [filter_eq_singleton_of_find? (fun a => a.id) bid
        (accounts.filter (fun a => a.userId == uid && a.isActive))
        (hids.sublist ((List.filter_sublist accounts).map (fun a => a.id)))
        t hfind]
      rw [List.map_cons, List.map_nil, List.map_cons, List.map_nil,
        setPrimaryUpdate_id, hqt]
    · constructor
      · intro habs; simp at habs
      · intro habs
        refine absurd ⟨t, (List.mem_filter.mp htmem).1, ?_⟩ habs
        have h2 := htp
        simp only [Bool.and_eq_true, beq_iff_eq] at h2
        exact ⟨h2.1, h2.2, hqt⟩

/-- Witness for C2 on a three-account collection (two accounts of the user,
one of them already primary, plus another user's account). -/
theorem C2_setPrimaryBankAccount_spec_witness :
    ((setPrimaryBankAccount
        [⟨"b1", "u1", "US", true, true, 0, 0, some "A Bank", some "x", none, none, none⟩,
         ⟨"b2", "u1", "US", false, true, 0, 0, some "B Bank", some "y", none, none, none⟩,
         ⟨"b3", "u2", "UK", true, true, 0, 0, some "C Bank", some "z", none, none, none⟩]
        "u1" "b2").1.success = true →
      ((((setPrimaryBankAccount
        [⟨"b1", "u1", "US", true, true, 0, 0, some "A Bank", some "x", none, none, none⟩,
         ⟨"b2", "u1", "US", false, true, 0, 0, some "B Bank", some "y", none, none, none⟩,
         ⟨"b3", "u2", "UK", true, true, 0, 0, some "C Bank", some "z", none, none, none⟩]
        "u1" "b2").2.filter
          (fun a => a.userId == "u1" && a.isActive)).filter
            (fun a => a.isPrimary)).map (fun a => a.id)) = ["b2"]) ∧
    ((setPrimaryBankAccount
        [⟨"b1", "u1", "US", true, true, 0, 0, some "A Bank", some "x", none, none, none⟩,
         ⟨"b2", "u1", "US", false, true, 0, 0, some "B Bank", some "y", none, none, none⟩,
         ⟨"b3", "u2", "UK", true, true, 0, 0, some "C Bank", some "z", none, none, none⟩]
        "u1" "b2").1 = ⟨false, some "Bank account not found"⟩ ↔
      ¬ ∃ a ∈ [⟨"b1", "u1", "US", true, true, 0, 0, some "A Bank", some "x", none, none,
          none⟩,
         ⟨"b2", "u1", "US", false, true, 0, 0, some "B Bank", some "y", none, none, none⟩,
         (⟨"b3", "u2", "UK", true, true, 0, 0, some "C Bank", some "z", none, none,
          none⟩ : BankAccount)],
        a.userId = "u1" ∧ a.isActive = true ∧ a.id = "b2") :=
  C2_setPrimaryBankAccount_spec
    [⟨"b1", "u1", "US", true, true, 0, 0, some "A Bank", some "x", none, none, none⟩,
     ⟨"b2", "u1", "US", false, true, 0, 0, some "B Bank", some "y", none, none, none⟩,
     ⟨"b3", "u2", "UK", true, true, 0, 0, some "C Bank", some "z", none, none, none⟩]
    "u1" "b2" (by decide)

structure Order where
  id : String
  userId : String
  total : Int
  status : String
deriving DecidableEq, Repr

/-- `getUserOrders(userId)` from `db.js`: mock data, two completed orders with
totals 5000 and 1000 (item sub-arrays are not modelled). -/
def getUserOrders (userId : String) : List Order :=
  [⟨"order_1", userId, 5000, "completed"⟩, ⟨"order_2", userId, 1000, "completed"⟩]

structure PayoutInfo where
  bankName : Option String
  accountNumber : String
  country : String
deriving DecidableEq, Repr

structure Payout where
  id : String
  userId : String
  bankAccountId : String
  amount : Int
  status : String
  createdAt : Nat
  estimatedArrival : Nat
  bankAccountInfo : PayoutInfo
deriving DecidableEq, Repr

structure PayoutHistory where
  payouts : List Payout
  total : Nat
  page : Nat
  totalPages : Nat
deriving DecidableEq, Repr

/-- `getPayoutHistory(userId, page, limit)` from `db.js`: the user's payouts
sorted by `createdAt` descending (stable, like V8's `Array.sort`), then the
`slice((page-1)*limit, page*limit)` page; `totalPages` is the ceiling of
`total / limit`. -/
def getPayoutHistory (payouts : List Payout) (userId : String)
    (page limit : Nat) : PayoutHistory :=
  let userPayouts := (payouts.filter (fun p => p.userId == userId)).mergeSort
    (fun a b => b.createdAt ≤ a.createdAt)
  let startIndex := (page - 1) * limit
  let endIndex := startIndex + limit
  { payouts := (userPayouts.take endIndex).drop startIndex
    total := userPayouts.length
    page := page
    totalPages := (userPayouts.length + limit - 1) / limit }

structure FinancialSummary where
  availableBalance : Int
  pendingBalance : Int
  totalPaidOut : Int
  totalEarnings : Int
  minimumPayout : Int
deriving DecidableEq, Repr

/-- `getFinancialSummary(userId)` from `db.js`: earnings are summed over the
(mock) completed orders, paid-out over the user's completed payouts from the
first 1000 history entries; `availableBalance = totalEarnings - totalPaidOut`
and the minimum payout is the constant 25.  (`nextPayoutDate` and
`payoutSchedule`, pure calendar formatting, are not modelled.) -/
def getFinancialSummary (payouts : List Payout) (userId : String) : FinancialSummary :=
  let orders := getUserOrders userId
  let ph := getPayoutHistory payouts userId 1 1000
  let completedOrders := orders.filter (fun o => o.status == "completed")
  let pendingOrders := orders.filter (fun o => o.status == "pending")
  let totalEarnings := completedOrders.foldl (fun s o => s + o.total) 0
  let totalPaidOut := ph.payouts.foldl
    (fun s p => if p.status == "completed" then s + p.amount else s) 0
  { availableBalance := totalEarnings - totalPaidOut
    pendingBalance := pendingOrders.foldl (fun s o => s + o.total) 0
    totalPaidOut := totalPaidOut
    totalEarnings := totalEarnings
    minimumPayout := 25 }

/-- `getBankAccountById(id)` from `db.js`. -/
def getBankAccountById (bankAccounts : List BankAccount) (id : String) :
    Option BankAccount :=
  bankAccounts.find? (fun a => a.id == id)

structure PayoutResult where
  success : Bool
  error : Option String
  payout : Option Payout
deriving DecidableEq, Repr

/-- `initiatePayout(userId, bankAccountId, amount)` from `db.js`: balance
check, then minimum check, then bank-account ownership/activity check, and
only then the pending payout is appended to the payouts collection, with a
three-day estimated arrival and a snapshot showing `'•••• '` plus the last
four characters of the stored (encrypted) account number. -/
def initiatePayout (payouts : List Payout) (bankAccounts : List BankAccount)
    (userId bankAccountId : String) (amount : Int) (now : Nat) (freshId : String) :
    PayoutResult × List Payout :=
  let summary := getFinancialSummary payouts userId
  if amount > summary.availableBalance then
    (⟨false, some "Insufficient balance", none⟩, payouts)
  else if amount < summary.minimumPayout then
    (⟨false, some ("Minimum payout amount is $" ++ toString summary.minimumPayout), none⟩,
     payouts)
  else
    match getBankAccountById bankAccounts bankAccountId with
    | none => (⟨false, some "Invalid bank account", none⟩, payouts)
    | some bankAccount =>
      if !(bankAccount.userId == userId) || !bankAccount.isActive then
        (⟨false, some "Invalid bank account", none⟩, payouts)
      else
        let newPayout : Payout :=
          { id := freshId, userId := userId, bankAccountId := bankAccountId,
            amount := amount, status := "pending", createdAt := now,
            estimatedArrival := now + 3 * 24 * 60 * 60 * 1000,
            bankAccountInfo :=
              { bankName := bankAccount.bankName,
                accountNumber :=
                  if jsTruthy bankAccount.accountNumber then
                    "•••• " ++ sliceLast (bankAccount.accountNumber.getD "") 4
                  else "",
                country := bankAccount.country } }
        (⟨true, none, some newPayout⟩, payouts ++ [newPayout])

/-- A string of at least five characters, none of which is a masking bullet
or a space, can never occur inside a mask prefix (made only of bullets,
spaces and dashes) followed by at most four visible characters: the masked
display carries at most four characters of payload. -/
theorem not_infix_of_masked (maskHead visible plain : String)
    (hlen : 5 ≤ plain.data.length)
    (hchars : ∀ ch ∈ plain.data, ch ≠ '•' ∧ ch ≠ ' ')
    (hmask : maskHead.data.countP (fun ch => !(ch == '•' || ch == ' ')) = 0)
    (hvis : visible.data.length ≤ 4) :
    ¬ List.IsInfix plain.data (maskHead ++ visible).data := by
  intro hinf
  have hsub := hinf.sublist
  have hcount := hsub.countP_le (p := fun ch => !(ch == '•' || ch == ' '))
  have hplain : (plain.data.countP (fun ch => !(ch == '•' || ch == ' '))) =
      plain.data.length := by
    rw [List.countP_eq_length]
    intro ch hch
    have := hchars ch hch
    simp [this.1, this.2]
  rw [hplain, String.data_append, List.countP_append, hmask] at hcount
  have hle := List.countP_le_length
    (p := fun ch => !(ch == '•' || ch == ' ')) (l := visible.data)
  omega

theorem sliceLast_length_le (s : String) (n : Nat) :
    (sliceLast s n).data.length ≤ n := by
  simp only [sliceLast]
  rw [List.length_drop]
  omega

/-- C1: `initiatePayout` fails `Insufficient balance` when the amount exceeds
the available balance; with sufficient balance it fails the $25 minimum when
the amount is below it; with both checks passed it fails `Invalid bank
account` when the account is missing, foreign or inactive; every failure
leaves the payouts collection unchanged; and on success exactly one `pending`
payout is appended, with a three-day estimated arrival and a bank snapshot
whose account-number display carries at most the last four characters of the
stored value, so it can never contain a decrypted account number of five or
more non-mask characters. -/
theorem C1_initiatePayout_spec (payouts : List Payout) (bankAccounts : List BankAccount)
    (userId bankAccountId : String) (amount : Int) (now : Nat) (freshId : String) :
    (amount > (getFinancialSummary payouts userId).availableBalance →
      initiatePayout payouts bankAccounts userId bankAccountId amount now freshId =
        (⟨false, some "Insufficient balance", none⟩, payouts)) ∧
    (amount ≤ (getFinancialSummary payouts userId).availableBalance → amount < 25 →
      initiatePayout payouts bankAccounts userId bankAccountId amount now freshId =
        (⟨false, some "Minimum payout amount is $25", none⟩, payouts)) ∧
    (amount ≤ (getFinancialSummary payouts userId).availableBalance → 25 ≤ amount →
      (getBankAccountById bankAccounts bankAccountId = none →
        initiatePayout payouts bankAccounts userId bankAccountId amount now freshId =
          (⟨false, some "Invalid bank account", none⟩, payouts)) ∧
      (∀ ba, getBankAccountById bankAccounts bankAccountId = some ba →
        (ba.userId ≠ userId ∨ ba.isActive = false →
          initiatePayout payouts bankAccounts userId bankAccountId amount now freshId =
            (⟨false, some "Invalid bank account", none⟩, payouts)) ∧
        (ba.userId = userId → ba.isActive = true →
          ∃ np : Payout,
            initiatePayout payouts bankAccounts userId bankAccountId amount now freshId =
              (⟨true, none, some np⟩, payouts ++ [np]) ∧
            np.status = "pending" ∧
            np.createdAt = now ∧
            np.estimatedArrival = now + 3 * 24 * 60 * 60 * 1000 ∧
            np.userId = userId ∧ np.bankAccountId = bankAccountId ∧
            np.amount = amount ∧
            np.bankAccountInfo.accountNumber =
              (if jsTruthy ba.accountNumber then
                "•••• " ++ sliceLast (ba.accountNumber.getD "") 4
              else "") ∧
            ∀ plain : String, 5 ≤ plain.data.length →
              (∀ ch ∈ plain.data, ch ≠ '•' ∧ ch ≠ ' ') →
              ¬ List.IsInfix plain.data np.bankAccountInfo.accountNumber.data))) := by
  refine ⟨?_, ?_, ?_⟩
  · intro hgt
    simp only [initiatePayout]
    rw [if_pos hgt]
  · intro hle hlt
    simp only [initiatePayout]
    rw [if_neg (by omega), if_pos (by
      show amount < (getFinancialSummary payouts userId).minimumPayout
      have h25 : (getFinancialSummary payouts userId).minimumPayout = 25 := rfl
      omega)]
    rfl
  · intro hle hge
    have hminpay : (getFinancialSummary payouts userId).minimumPayout = 25 := rfl
    constructor
    · intro hnone
      simp only [initiatePayout]
      rw [if_neg (by omega), if_neg (by omega), hnone]
    · intro ba hba
      constructor
      · intro hbad
        simp only [initiatePayout]
        rw [if_neg (by omega), if_neg (by omega)]
        simp only [hba]
        rw [if_pos (by
          rcases hbad with h | h
          · simp [h]
          · simp [h])]
      · intro hown hact
        refine ⟨(⟨freshId, userId, bankAccountId, amount, "pending", now,
            now + 3 * 24 * 60 * 60 * 1000,
            ⟨ba.bankName,
             if jsTruthy ba.accountNumber then
               "•••• " ++ sliceLast (ba.accountNumber.getD "") 4
             else "",
             ba.country⟩⟩ : Payout), ?_, rfl, rfl, rfl, rfl, rfl, rfl, rfl, ?_⟩
        · simp only [initiatePayout]
          rw [if_neg (by omega), if_neg (by omega)]
          simp only [hba]
          rw [if_neg (by simp [hown, hact])]
        · intro plain hlen hchars
          show ¬ List.IsInfix plain.data
            (if jsTruthy ba.accountNumber = true then
              "•••• " ++ sliceLast (ba.accountNumber.getD "") 4
            else "").data
          by_cases htr : jsTruthy ba.accountNumber = true
          · rw [if_pos htr]
            exact not_infix_of_masked "•••• " _ plain hlen hchars (by decide)
              (sliceLast_length_le _ 4)
          · rw [if_neg htr]
            intro hinf
            have hlensub := hinf.sublist.length_le
            have hnil : (("" : String).data).length = 0 := rfl
            omega

/-- Witness for C1: a successful payout of 100 against an empty payout
history (balance 6000) appends exactly one pending payout whose snapshot
shows only the last four characters of the stored account value. -/
theorem C1_initiatePayout_spec_witness :
    ∃ np : Payout,
      initiatePayout []
        [⟨"b1", "u1", "US", true, true, 0, 0, some "A Bank", some "aa:bbccdd1234",
          none, none, none⟩]
        "u1" "b1" 100 0 "p1" = (⟨true, none, some np⟩, [] ++ [np]) ∧
      np.status = "pending" ∧
      np.createdAt = 0 ∧
      np.estimatedArrival = 0 + 3 * 24 * 60 * 60 * 1000 ∧
      np.userId = "u1" ∧ np.bankAccountId = "b1" ∧
      np.amount = 100 ∧
      np.bankAccountInfo.accountNumber = "•••• 1234" ∧
      ∀ plain : String, 5 ≤ plain.data.length →
        (∀ ch ∈ plain.data, ch ≠ '•' ∧ ch ≠ ' ') →
        ¬ List.IsInfix plain.data np.bankAccountInfo.accountNumber.data :=
  (((C1_initiatePayout_spec []
      [⟨"b1", "u1", "US", true, true, 0, 0, some "A Bank", some "aa:bbccdd1234",
        none, none, none⟩]
      "u1" "b1" 100 0 "p1").2.2 (by
        have h : (getFinancialSummary [] "u1").availableBalance = 6000 := by
          simp [getFinancialSummary, getPayoutHistory, getUserOrders, List.foldl]
        omega) (by decide)).2
    ⟨"b1", "u1", "US", true, true, 0, 0, some "A Bank", some "aa:bbccdd1234",
      none, none, none⟩ rfl).2 rfl rfl

structure SocialStat where
  followers : Nat
  posts : Nat
  engagement : Nat
deriving DecidableEq, Repr

structure SocialMediaStats where
  facebook : SocialStat
  instagram : SocialStat
  linkedin : SocialStat
  tiktok : SocialStat
deriving DecidableEq, Repr

structure Profile where
  avatar : Option String
  bio : String
  website : String
  socialLinks : List (String × String)
deriving DecidableEq, Repr

/-- A user record as persisted by `db.js`; embedded sub-documents (campaigns,
posts, team entries) are modelled opaquely as strings, since `createUser`
only ever initialises them to empty arrays. -/
structure User where
  id : String
  email : String
  firstName : String
  lastName : String
  password : String
  role : String
  isOrganizer : Bool
  isActive : Bool
  createdAt : Nat
  updatedAt : Nat
  likedEvents : List String
  marketingCampaigns : List String
  socialMediaPosts : List String
  adCampaigns : List String
  socialMediaStats : SocialMediaStats
  profile : Profile
  teamMembers : List String
  teamRoles : List String
  teamInvitations : List String
  organizationId : Option String
deriving DecidableEq, Repr

/-- The `{ password, ...userWithoutPassword }` shape returned to callers:
every `User` field except the password. -/
structure UserPublic where
  id : String
  email : String
  firstName : String
  lastName : String
  role : String
  isOrganizer : Bool
  isActive : Bool
  createdAt : Nat
  updatedAt : Nat
  likedEvents : List String
  marketingCampaigns : List String
  socialMediaPosts : List String
  adCampaigns : List String
  socialMediaStats : SocialMediaStats
  profile : Profile
  teamMembers : List String
  teamRoles : List String
  teamInvitations : List String
  organizationId : Option String
deriving DecidableEq, Repr

def userWithoutPassword (u : User) : UserPublic :=
  ⟨u.id, u.email, u.firstName, u.lastName, u.role, u.isOrganizer, u.isActive,
   u.createdAt, u.updatedAt, u.likedEvents, u.marketingCampaigns,
   u.socialMediaPosts, u.adCampaigns, u.socialMediaStats, u.profile,
   u.teamMembers, u.teamRoles, u.teamInvitations, u.organizationId⟩

structure UserDraft where
  email : String
  firstName : String
  lastName : String
  password : String
  role : Option String
  isOrganizer : Option Bool
deriving DecidableEq, Repr

/-- JavaScript `v || dflt` for string-valued `v`: absent and empty are falsy. -/
def jsOrString (v : Option String) (dflt : String) : String :=
  match v with
  | none => dflt
  | some s => if s == "" then dflt else s

structure CreateUserResult where
  success : Bool
  error : Option String
  user : Option UserPublic
deriving DecidableEq, Repr

/-- `createUser(userData)` from `db.js`: the duplicate check scans ALL users
(`users.find(user => user.email.toLowerCase() === userData.email.toLowerCase())`)
— it does not restrict to active users; on success the stored record gets the
generated id, lowercased email, defaulted role/organizer flag, `isActive`,
empty sub-collections and zeroed stats, and the result carries the record
without its password field. -/
def createUser (users : List User) (userData : UserDraft) (freshId : String)
    (now : Nat) : CreateUserResult × List User :=
  match users.find? (fun u => jsToLowerCase u.email == jsToLowerCase userData.email) with
  | some _ => (⟨false, some "User with this email already exists", none⟩, users)
  | none =>
    let newUser : User :=
      ⟨freshId, jsToLowerCase userData.email, userData.firstName, userData.lastName,
       userData.password, jsOrString userData.role "user",
       userData.isOrganizer.getD false, true, now, now,
       [], [], [], [], ⟨⟨0, 0, 0⟩, ⟨0, 0, 0⟩, ⟨0, 0, 0⟩, ⟨0, 0, 0⟩⟩,
       ⟨none, "", "", []⟩, [], [], [], none⟩
    (⟨true, none, some (userWithoutPassword newUser)⟩, users ++ [newUser])

/-- C8 counterexample: the collection holds a single INACTIVE user with email
`a@x.com`; no active user with that email exists, yet `createUser` for
`a@x.com` still fails with the duplicate-email error, refuting the claim's
`if and only if an active user … exists`. -/
theorem C8_createUser_counterexample :
    (⟨"u0", "a@x.com", "A", "B", "pw", "user", false, false, 0, 0,
      [], [], [], [], ⟨⟨0, 0, 0⟩, ⟨0, 0, 0⟩, ⟨0, 0, 0⟩, ⟨0, 0, 0⟩⟩,
      ⟨none, "", "", []⟩, [], [], [], none⟩ : User).isActive = false ∧
    (createUser
      [⟨"u0", "a@x.com", "A", "B", "pw", "user", false, false, 0, 0,
        [], [], [], [], ⟨⟨0, 0, 0⟩, ⟨0, 0, 0⟩, ⟨0, 0, 0⟩, ⟨0, 0, 0⟩⟩,
        ⟨none, "", "", []⟩, [], [], [], none⟩]
      ⟨"a@x.com", "C", "D", "pw2", none, none⟩ "u1" 5).1 =
      ⟨false, some "User with this email already exists", none⟩ := by
  decide

/-- C8 (amended): `createUser` fails with the duplicate-email error — leaving
the collection unchanged — if and only if ANY user (active or not) with the
same case-insensitive email exists; otherwise it appends one record carrying
the generated id, the lowercased email, `isActive = true`, empty
sub-collections and zeroed stat blocks, and returns that record without the
password field. -/
theorem C8_createUser_spec (users : List User) (d : UserDraft) (freshId : String)
    (now : Nat) :
    (((createUser users d freshId now).1 =
        ⟨false, some "User with this email already exists", none⟩ ∧
      (createUser users d freshId now).2 = users) ↔
      ∃ u ∈ users, jsToLowerCase u.email = jsToLowerCase d.email) ∧
    ((∀ u ∈ users, jsToLowerCase u.email ≠ jsToLowerCase d.email) →
      ∃ nu : User,
        createUser users d freshId now =
          (⟨true, none, some (userWithoutPassword nu)⟩, users ++ [nu]) ∧
        nu.id = freshId ∧ nu.email = jsToLowerCase d.email ∧ nu.isActive = true ∧
        nu.password = d.password ∧ nu.role = jsOrString d.role "user" ∧
        nu.isOrganizer = d.isOrganizer.getD false ∧
        nu.createdAt = now ∧ nu.updatedAt = now ∧
        nu.likedEvents = [] ∧ nu.marketingCampaigns = [] ∧
        nu.socialMediaPosts = [] ∧ nu.adCampaigns = [] ∧
        nu.teamMembers = [] ∧ nu.teamRoles = [] ∧ nu.teamInvitations = [] ∧
        nu.socialMediaStats = ⟨⟨0, 0, 0⟩, ⟨0, 0, 0⟩, ⟨0, 0, 0⟩, ⟨0, 0, 0⟩⟩ ∧
        nu.organizationId = none) := by
  cases hfind : users.find? (fun u => jsToLowerCase u.email == jsToLowerCase d.email) with
  | some u =>
    have hres : createUser users d freshId now =
        (⟨false, some "User with this email already exists", none⟩, users) := by
      simp only [createUser]
      rw [hfind]
    have hmem := List.mem_of_find?_eq_some hfind
    have heq : jsToLowerCase u.email = jsToLowerCase d.email := by
      have h := List.find?_some hfind
      simpa using h
    constructor
    · rw [hres]
      exact ⟨fun _ => ⟨u, hmem, heq⟩, fun _ => ⟨rfl, rfl⟩⟩
    · intro hall
      exact absurd heq (hall u hmem)
  | none =>
    have hres : createUser users d freshId now =
        (⟨true, none, some (userWithoutPassword
          ⟨freshId, jsToLowerCase d.email, d.firstName, d.lastName, d.password,
           jsOrString d.role "user", d.isOrganizer.getD false, true, now, now,
           [], [], [], [], ⟨⟨0, 0, 0⟩, ⟨0, 0, 0⟩, ⟨0, 0, 0⟩, ⟨0, 0, 0⟩⟩,
           ⟨none, "", "", []⟩, [], [], [], none⟩)⟩,
         users ++ [⟨freshId, jsToLowerCase d.email, d.firstName, d.lastName, d.password,
           jsOrString d.role "user", d.isOrganizer.getD false, true, now, now,
           [], [], [], [], ⟨⟨0, 0, 0⟩, ⟨0, 0, 0⟩, ⟨0, 0, 0⟩, ⟨0, 0, 0⟩⟩,
           ⟨none, "", "", []⟩, [], [], [], none⟩]) := by
      simp only [createUser]
      rw [hfind]
    constructor
    · rw [hres]
      constructor
      · rintro ⟨habs, -⟩
        exact absurd habs (by simp)
      · rintro ⟨u, hu, he⟩
        have := List.find?_eq_none.mp hfind u hu
        exact absurd (by simp [he] : (jsToLowerCase u.email == jsToLowerCase d.email) = true) this
    · intro _
      exact ⟨_, hres, rfl, rfl, rfl, rfl, rfl, rfl, rfl, rfl, rfl, rfl, rfl, rfl,
        rfl, rfl, rfl, rfl, rfl⟩

/-- Witness for C8 (amended), matching the spec's scenario: after creating
`a@x.com`, an attempt with `A@X.COM` fails `DuplicateEmail` and leaves the
collection unchanged. -/
theorem C8_createUser_spec_witness :
    ((createUser
        [⟨"u0", "a@x.com", "A", "B", "pw", "user", false, true, 0, 0,
          [], [], [], [], ⟨⟨0, 0, 0⟩, ⟨0, 0, 0⟩, ⟨0, 0, 0⟩, ⟨0, 0, 0⟩⟩,
          ⟨none, "", "", []⟩, [], [], [], none⟩]
        ⟨"A@X.COM", "C", "D", "pw2", none, none⟩ "u1" 5).1 =
      ⟨false, some "User with this email already exists", none⟩ ∧
    (createUser
        [⟨"u0", "a@x.com", "A", "B", "pw", "user", false, true, 0, 0,
          [], [], [], [], ⟨⟨0, 0, 0⟩, ⟨0, 0, 0⟩, ⟨0, 0, 0⟩, ⟨0, 0, 0⟩⟩,
          ⟨none, "", "", []⟩, [], [], [], none⟩]
        ⟨"A@X.COM", "C", "D", "pw2", none, none⟩ "u1" 5).2 =
      [⟨"u0", "a@x.com", "A", "B", "pw", "user", false, true, 0, 0,
        [], [], [], [], ⟨⟨0, 0, 0⟩, ⟨0, 0, 0⟩, ⟨0, 0, 0⟩, ⟨0, 0, 0⟩⟩,
        ⟨none, "", "", []⟩, [], [], [], none⟩]) :=
  (C8_createUser_spec
    [⟨"u0", "a@x.com", "A", "B", "pw", "user", false, true, 0, 0,
      [], [], [], [], ⟨⟨0, 0, 0⟩, ⟨0, 0, 0⟩, ⟨0, 0, 0⟩, ⟨0, 0, 0⟩⟩,
      ⟨none, "", "", []⟩, [], [], [], none⟩]
    ⟨"A@X.COM", "C", "D", "pw2", none, none⟩ "u1" 5).1.mpr
    ⟨⟨"u0", "a@x.com", "A", "B", "pw", "user", false, true, 0, 0,
      [], [], [], [], ⟨⟨0, 0, 0⟩, ⟨0, 0, 0⟩, ⟨0, 0, 0⟩, ⟨0, 0, 0⟩⟩,
      ⟨none, "", "", []⟩, [], [], [], none⟩, by decide, by decide⟩

/-- In-place mutation of the first element matching `p` (the JS pattern of
`find`/`findIndex` followed by property assignments on the found object). -/
def updateFirst {α : Type} (p : α → Bool) (f : α → α) : List α → List α
  | [] => []
  | x :: xs => if p x then f x :: xs else x :: updateFirst p f xs

structure UserApp where
  id : String
  userId : String
  appId : String
  installedAt : Nat
  isActive : Bool
  uninstalledAt : Option Nat
deriving DecidableEq, Repr

structure InstallResult where
  success : Bool
  error : Option String
  installation : Option UserApp
deriving DecidableEq, Repr

/-- `installApp(userId, appId)` from `db.js`: look up any row for
`(userId, appId)` (active or not); fail `App already installed` when it is
active.  A fresh `installation` object with a NEW generated id is built and
returned in every success case, but when an inactive row exists the stored
list instead reactivates that row in place — keeping its original id and its
`uninstalledAt` stamp — and only when no row exists at all is the fresh
object itself appended. -/
def installApp (userApps : List UserApp) (userId appId freshId : String)
    (now : Nat) : InstallResult × List UserApp :=
  match userApps.find? (fun ua => ua.userId == userId && ua.appId == appId) with
  | some existing =>
    if existing.isActive then
      (⟨false, some "App already installed", none⟩, userApps)
    else
      (⟨true, none, some ⟨freshId, userId, appId, now, true, none⟩⟩,
       updateFirst (fun ua => ua.userId == userId && ua.appId == appId)
         (fun ua => { ua with isActive := true, installedAt := now }) userApps)
  | none =>
    (⟨true, none, some ⟨freshId, userId, appId, now, true, none⟩⟩,
     userApps ++ [⟨freshId, userId, appId, now, true, none⟩])

/-- `uninstallApp(userId, appId)` from `db.js`: `findIndex` of an ACTIVE row
for `(userId, appId)`; fail `App not found or not installed` when there is
none, otherwise soft-deactivate that row and stamp `uninstalledAt`. -/
def uninstallApp (userApps : List UserApp) (userId appId : String) (now : Nat) :
    SimpleResult × List UserApp :=
  match userApps.find?
      (fun ua => ua.userId == userId && ua.appId == appId && ua.isActive) with
  | none => (⟨false, some "App not found or not installed"⟩, userApps)
  | some _ =>
    (⟨true, none⟩,
     updateFirst (fun ua => ua.userId == userId && ua.appId == appId && ua.isActive)
       (fun ua => { ua with isActive := false, uninstalledAt := some now }) userApps)

theorem map_updateFirst {α β : Type} (p : α → Bool) (f : α → α) (g : α → β)
    (hg : ∀ a, g (f a) = g a) : ∀ l : List α, (updateFirst p f l).map g = l.map g := by
  intro l
  induction l with
  | nil => rfl
  | cons x xs ih =>
    by_cases h : p x = true
    · simp [updateFirst, h, hg]
    · simp [updateFirst, h, ih]

theorem mem_updateFirst_of_find? {α : Type} (p : α → Bool) (f : α → α) :
    ∀ (l : List α) (ex : α), l.find? p = some ex → f ex ∈ updateFirst p f l := by
  intro l
  induction l with
  | nil => intro ex hex; simp at hex
  | cons x xs ih =>
    intro ex hex
    by_cases h : p x = true
    · rw [List.find?_cons_of_pos _ h] at hex
      have : x = ex := by injection hex
      simp [updateFirst, h, ← this]
    · rw [List.find?_cons_of_neg _ (by simp [h])] at hex
      simp only [updateFirst, if_neg h]
      exact List.mem_cons_of_mem x (ih ex hex)

/-- C9 counterexample: one uninstalled row with id `inst_orig`; reinstalling
keeps `inst_orig` in the store (no duplicate), but the installation record
RETURNED by the call carries the freshly generated id `inst_new`, not the
original id as the claim states. -/
theorem C9_install_counterexample :
    ((installApp [⟨"inst_orig", "u", "a", 0, false, some 5⟩] "u" "a" "inst_new" 9).2.map
        (fun ua => ua.id)) = ["inst_orig"] ∧
    (installApp [⟨"inst_orig", "u", "a", 0, false, some 5⟩] "u" "a" "inst_new" 9).1.installation =
      some ⟨"inst_new", "u", "a", 9, true, none⟩ ∧
    "inst_new" ≠ "inst_orig" := by
  decide

/-- C9 (amended): `installApp` fails `App already installed` when the
`(userId, appId)` row found is active, leaving the store unchanged;
reinstalling after an uninstall reactivates the existing row in place — the
store keeps the original id, the row is stamped active with the new install
time, and no duplicate row is created — while the installation record
returned carries the freshly generated id (not the original);
`uninstallApp` fails `App not found or not installed` when no active row
exists, and otherwise deactivates the row and stamps `uninstalledAt` without
deleting it. -/
theorem C9_install_uninstall_spec (userApps : List UserApp)
    (uid aid fid : String) (now : Nat) :
    (∀ ex, userApps.find? (fun ua => ua.userId == uid && ua.appId == aid) = some ex →
      (ex.isActive = true →
        installApp userApps uid aid fid now =
          (⟨false, some "App already installed", none⟩, userApps)) ∧
      (ex.isActive = false →
        (installApp userApps uid aid fid now).1 =
          ⟨true, none, some ⟨fid, uid, aid, now, true, none⟩⟩ ∧
        ((installApp userApps uid aid fid now).2.map (fun ua => ua.id)) =
          userApps.map (fun ua => ua.id) ∧
        (⟨ex.id, ex.userId, ex.appId, now, true, ex.uninstalledAt⟩ : UserApp) ∈
          (installApp userApps uid aid fid now).2)) ∧
    (userApps.find? (fun ua => ua.userId == uid && ua.appId == aid) = none →
      installApp userApps uid aid fid now =
        (⟨true, none, some ⟨fid, uid, aid, now, true, none⟩⟩,
         userApps ++ [⟨fid, uid, aid, now, true, none⟩])) ∧
    (userApps.find? (fun ua => ua.userId == uid && ua.appId == aid && ua.isActive) =
        none →
      uninstallApp userApps uid aid now =
        (⟨false, some "App not found or not installed"⟩, userApps)) ∧
    (∀ ex, userApps.find?
        (fun ua => ua.userId == uid && ua.appId == aid && ua.isActive) = some ex →
      (uninstallApp userApps uid aid now).1 = ⟨true, none⟩ ∧
      ((uninstallApp userApps uid aid now).2.map (fun ua => ua.id)) =
        userApps.map (fun ua => ua.id) ∧
      (⟨ex.id, ex.userId, ex.appId, ex.installedAt, false, some now⟩ : UserApp) ∈
        (uninstallApp userApps uid aid now).2) := by
  refine ⟨?_, ?_, ?_, ?_⟩
  · intro ex hex
    constructor
    · intro hact
      simp only [installApp, hex]
      rw [if_pos hact]
    · intro hinact
      have hres : installApp userApps uid aid fid now =
          (⟨true, none, some ⟨fid, uid, aid, now, true, none⟩⟩,
           updateFirst (fun ua => ua.userId == uid && ua.appId == aid)
             (fun ua => { ua with isActive := true, installedAt := now }) userApps) := by
        simp only [installApp, hex]
        rw [if_neg (by simp [hinact])]
      rw [hres]
      refine ⟨rfl, ?_, ?_⟩
      · exact map_updateFirst (fun ua => ua.userId == uid && ua.appId == aid)
          (fun ua => { ua with isActive := true, installedAt := now })
          (fun ua => ua.id) (fun a => rfl) userApps
      · exact mem_updateFirst_of_find? (fun ua => ua.userId == uid && ua.appId == aid)
          (fun ua => { ua with isActive := true, installedAt := now }) userApps ex hex
  · intro hnone
    simp only [installApp]
    rw [hnone]
  · intro hnone
    simp only [uninstallApp]
    rw [hnone]
  · intro ex hex
    have hres : uninstallApp userApps uid aid now =
        (⟨true, none⟩,
         updateFirst (fun ua => ua.userId == uid && ua.appId == aid && ua.isActive)
           (fun ua => { ua with isActive := false, uninstalledAt := some now })
           userApps) := by
      simp only [uninstallApp, hex]
    rw [hres]
    refine ⟨rfl, ?_, ?_⟩
    · exact map_updateFirst (fun ua => ua.userId == uid && ua.appId == aid && ua.isActive)
        (fun ua => { ua with isActive := false, uninstalledAt := some now })
        (fun ua => ua.id) (fun a => rfl) userApps
    · exact mem_updateFirst_of_find?
        (fun ua => ua.userId == uid && ua.appId == aid && ua.isActive)
        (fun ua => { ua with isActive := false, uninstalledAt := some now })
        userApps ex hex

/-- Witness for C9 (amended): reinstalling the uninstalled row `inst_orig`
succeeds, returns a record with the fresh id, keeps the stored id, and marks
the stored row active again. -/
theorem C9_install_uninstall_spec_witness :
    (installApp [⟨"inst_orig", "u", "a", 0, false, some 5⟩] "u" "a" "inst_new" 9).1 =
      ⟨true, none, some ⟨"inst_new", "u", "a", 9, true, none⟩⟩ ∧
    ((installApp [⟨"inst_orig", "u", "a", 0, false, some 5⟩] "u" "a" "inst_new" 9).2.map
        (fun ua => ua.id)) = ["inst_orig"] ∧
    (⟨"inst_orig", "u", "a", 9, true, some 5⟩ : UserApp) ∈
      (installApp [⟨"inst_orig", "u", "a", 0, false, some 5⟩] "u" "a" "inst_new" 9).2 :=
  ((C9_install_uninstall_spec [⟨"inst_orig", "u", "a", 0, false, some 5⟩]
      "u" "a" "inst_new" 9).1
    ⟨"inst_orig", "u", "a", 0, false, some 5⟩ (by decide)).2 (by decide)

structure RatingRecord where
  id : String
  userId : String
  appId : String
  rating : Int
  review : String
  createdAt : Nat
deriving DecidableEq, Repr

structure RateResult where
  success : Bool
  error : Option String
  rating : Option RatingRecord
deriving DecidableEq, Repr

/-- `rateApp(userId, appId, rating, review)` from `db.js`: always succeeds
with a fresh rating record (nothing is persisted). -/
def rateApp (userId appId : String) (rating : Int) (review : String)
    (freshId : String) (now : Nat) : RateResult :=
  ⟨true, none, some ⟨freshId, userId, appId, rating, review, now⟩⟩

structure BankAccountResult where
  success : Bool
  error : Option String
  bankAccount : Option BankAccount
deriving DecidableEq, Repr

/-- `createBankAccount(bankAccountData)` from `db.js`: when the new record is
primary, first demote every other active account of the same user, then push
the record and return it. -/
def createBankAccount (bankAccounts : List BankAccount) (data : BankAccount) :
    BankAccountResult × List BankAccount :=
  let demoted :=
    if data.isPrimary then
      bankAccounts.map (fun a =>
        if a.userId == data.userId && a.isActive then { a with isPrimary := false }
        else a)
    else bankAccounts
  (⟨true, none, some data⟩, demoted ++ [data])

/-!
The MongoDB-backed store (`server/database/mongoDatabase.js`).  Its
bank-account, payout and app install/uninstall/rate methods are stubs that
unconditionally return `{ success: false, error: 'Not implemented for
MongoDB yet' }` (lines 393–437), and `getUserBankAccounts` returns `[]`.
-/

def mongoInitiatePayout (userId bankAccountId : String) (amount : Int) : PayoutResult :=
  ⟨false, some "Not implemented for MongoDB yet", none⟩

def mongoCreateBankAccount (bankAccountData : BankAccount) : BankAccountResult :=
  ⟨false, some "Not implemented for MongoDB yet", none⟩

def mongoUpdateBankAccount (id : String) (updates : List (String × String)) :
    BankAccountResult :=
  ⟨false, some "Not implemented for MongoDB yet", none⟩

def mongoDeleteBankAccount (id : String) : SimpleResult :=
  ⟨false, some "Not implemented for MongoDB yet"⟩

def mongoSetPrimaryBankAccount (userId bankAccountId : String) : SimpleResult :=
  ⟨false, some "Not implemented for MongoDB yet"⟩

def mongoInstallApp (userId appId : String) : InstallResult :=
  ⟨false, some "Not implemented for MongoDB yet", none⟩

def mongoUninstallApp (userId appId : String) : SimpleResult :=
  ⟨false, some "Not implemented for MongoDB yet"⟩

def mongoRateApp (userId appId : String) (rating : Int) (review : String) : RateResult :=
  ⟨false, some "Not implemented for MongoDB yet", none⟩

def mongoGetUserBankAccounts (userId : String) : List BankAccount := []

/-- C3 counterexample: `rateApp` — an operation that always succeeds against
the FileStore — always fails against the DocumentStore, so the handler can
tell the stores apart from the result alone. -/
theorem C3_store_counterexample :
    rateApp "u1" "app1" 5 "great" "r1" 0 =
      ⟨true, none, some ⟨"r1", "u1", "app1", 5, "great", 0⟩⟩ ∧
    mongoRateApp "u1" "app1" 5 "great" =
      ⟨false, some "Not implemented for MongoDB yet", none⟩ ∧
    (rateApp "u1" "app1" 5 "great" "r1" 0).success ≠
      (mongoRateApp "u1" "app1" 5 "great").success := by
  decide

/-- C3 (amended): the two stores expose the same operation names and the same
tagged `success`/`error` result shape, but the DocumentStore's bank-account,
payout and app install/uninstall/rate operations are unimplemented stubs that
always fail with `Not implemented for MongoDB yet`, while the FileStore's
`rateApp` (and `createBankAccount`) always succeed — so operations that can
succeed against the FileStore cannot succeed against the DocumentStore and
the handler can distinguish the active store. -/
theorem C3_store_divergence (userId appId bankAccountId freshId review : String)
    (rating amount : Int) (now : Nat) (bankAccounts : List BankAccount)
    (data : BankAccount) (updates : List (String × String)) :
    mongoInitiatePayout userId bankAccountId amount =
      ⟨false, some "Not implemented for MongoDB yet", none⟩ ∧
    mongoCreateBankAccount data =
      ⟨false, some "Not implemented for MongoDB yet", none⟩ ∧
    mongoUpdateBankAccount bankAccountId updates =
      ⟨false, some "Not implemented for MongoDB yet", none⟩ ∧
    mongoDeleteBankAccount bankAccountId =
      ⟨false, some "Not implemented for MongoDB yet"⟩ ∧
    mongoSetPrimaryBankAccount userId bankAccountId =
      ⟨false, some "Not implemented for MongoDB yet"⟩ ∧
    mongoInstallApp userId appId =
      ⟨false, some "Not implemented for MongoDB yet", none⟩ ∧
    mongoUninstallApp userId appId =
      ⟨false, some "Not implemented for MongoDB yet"⟩ ∧
    mongoRateApp userId appId rating review =
      ⟨false, some "Not implemented for MongoDB yet", none⟩ ∧
    mongoGetUserBankAccounts userId = [] ∧
    (rateApp userId appId rating review freshId now).success = true ∧
    (mongoRateApp userId appId rating review).success = false ∧
    ((createBankAccount bankAccounts data).1).success = true ∧
    (mongoCreateBankAccount data).success = false :=
  ⟨rfl, rfl, rfl, rfl, rfl, rfl, rfl, rfl, rfl, rfl, rfl, rfl, rfl⟩

/-!
Bank-field masking in API responses (finance router).  `GET /bank-accounts`
masks the four sensitive fields of each stored record directly — note it
masks the STORED (encrypted) values, it never calls `decrypt`; the iban mask
also exposes the first four characters.  The `POST /bank-accounts` response
masks `decrypt(stored.accountNumber)`.
-/

/-- Per-value mask of `accountNumber` in the GET route:
`account.accountNumber ? '•••• •••• •••• ' + account.accountNumber.slice(-4) : ''`. -/
def maskGetAccountNumber (v : Option String) : String :=
  if jsTruthy v then "•••• •••• •••• " ++ sliceLast (v.getD "") 4 else ""

/-- Per-value mask of `routingNumber` in the GET route: `'••••••' + slice(-3)`. -/
def maskGetRoutingNumber (v : Option String) : String :=
  if jsTruthy v then "••••••" ++ sliceLast (v.getD "") 3 else ""

/-- Per-value mask of `sortCode` in the GET route: `'••-••-' + slice(-2)`. -/
def maskGetSortCode (v : Option String) : String :=
  if jsTruthy v then "••-••-" ++ sliceLast (v.getD "") 2 else ""

/-- Per-value mask of `iban` in the GET route:
`iban.slice(0, 4) + '••••••••••••••••' + iban.slice(-4)`. -/
def maskGetIban (v : Option String) : String :=
  if jsTruthy v then
    sliceTo (v.getD "") 4 ++ "••••••••••••••••" ++ sliceLast (v.getD "") 4
  else ""

/-- The record shape returned by `GET /bank-accounts` for one stored account:
the spread of the record with the four sensitive fields replaced by their
masked display strings. -/
def maskBankAccountGet (a : BankAccount) : BankAccount :=
  { a with
    accountNumber := some (maskGetAccountNumber a.accountNumber)
    routingNumber := some (maskGetRoutingNumber a.routingNumber)
    sortCode := some (maskGetSortCode a.sortCode)
    iban := some (maskGetIban a.iban) }

/-- The `POST /bank-accounts` response mask: `result.bankAccount.accountNumber
? '•••• •••• •••• ' + decrypt(result.bankAccount.accountNumber).slice(-4) : ''`. -/
def maskPostAccountNumber (c : CipherCore) (v : Option String) : String :=
  if jsTruthy v then "•••• •••• •••• " ++ sliceLast (decrypt c (v.getD "")) 4 else ""

/-- C6 counterexample: the GET iban mask is not a function of the last four
characters of the value — two stored ibans agreeing on their last four (even
their last eight) characters mask to different strings, and the mask exposes
the iban's first four characters verbatim, so the response does not show
`only the last 3–4 characters of the value with the rest replaced by a
masking character`. -/
theorem C6_mask_counterexample :
    sliceLast "AAAA00001111" 4 = sliceLast "BBBB00001111" 4 ∧
    maskGetIban (some "AAAA00001111") ≠ maskGetIban (some "BBBB00001111") ∧
    maskGetIban (some "AAAA00001111") = "AAAA••••••••••••••••1111" ∧
    sliceTo (maskGetIban (some "AAAA00001111")) 4 = sliceTo "AAAA00001111" 4 := by
  decide

/-- C6 (amended): the GET masks show a fixed mask prefix plus the last 4 / 3
/ 2 characters of the stored `accountNumber` / `routingNumber` / `sortCode`
(each a function of those trailing characters alone), while the iban mask
shows the FIRST four and last four characters of the stored value; the POST
response shows `'•••• •••• •••• '` plus the last four characters of the
decrypted account number — for a stored value produced by `encrypt`, exactly
the plaintext's last four characters — and a decrypted value of five or more
non-mask characters never appears in full in the masked response field. -/
theorem C6_masking_spec (a : BankAccount) :
    (∀ v : String, v ≠ "" →
      maskGetAccountNumber (some v) = "•••• •••• •••• " ++ sliceLast v 4 ∧
      maskGetRoutingNumber (some v) = "••••••" ++ sliceLast v 3 ∧
      maskGetSortCode (some v) = "••-••-" ++ sliceLast v 2 ∧
      maskGetIban (some v) = sliceTo v 4 ++ "••••••••••••••••" ++ sliceLast v 4) ∧
    (∀ v w : String, v ≠ "" → w ≠ "" →
      (sliceLast v 4 = sliceLast w 4 →
        maskGetAccountNumber (some v) = maskGetAccountNumber (some w)) ∧
      (sliceLast v 3 = sliceLast w 3 →
        maskGetRoutingNumber (some v) = maskGetRoutingNumber (some w)) ∧
      (sliceLast v 2 = sliceLast w 2 →
        maskGetSortCode (some v) = maskGetSortCode (some w))) ∧
    (maskBankAccountGet a).accountNumber =
      some (maskGetAccountNumber a.accountNumber) ∧
    (maskBankAccountGet a).iban = some (maskGetIban a.iban) ∧
    (∀ (c : CipherCore) (iv p : String), ':' ∉ iv.data →
      maskPostAccountNumber c (some (encrypt c iv p)) =
        "•••• •••• •••• " ++ sliceLast p 4) ∧
    (∀ (c : CipherCore) (stored : Option String) (plain : String),
      5 ≤ plain.data.length →
      (∀ ch ∈ plain.data, ch ≠ '•' ∧ ch ≠ ' ') →
      ¬ List.IsInfix plain.data (maskPostAccountNumber c stored).data) := by
  refine ⟨?_, ?_, rfl, rfl, ?_, ?_⟩
  · intro v hv
    have ht : jsTruthy (some v) = true := by simp [jsTruthy, hv]
    exact ⟨by simp [maskGetAccountNumber, ht], by simp [maskGetRoutingNumber, ht],
      by simp [maskGetSortCode, ht], by simp [maskGetIban, ht]⟩
  · intro v w hv hw
    have htv : jsTruthy (some v) = true := by simp [jsTruthy, hv]
    have htw : jsTruthy (some w) = true := by simp [jsTruthy, hw]
    refine ⟨?_, ?_, ?_⟩
    · intro h; simp [maskGetAccountNumber, htv, htw, h]
    · intro h; simp [maskGetRoutingNumber, htv, htw, h]
    · intro h; simp [maskGetSortCode, htv, htw, h]
  · intro c iv p hiv
    have hne : encrypt c iv p ≠ "" := by
      intro h
      have hd := congrArg String.data h
      simp only [encrypt, string_data_append] at hd
      simp at hd
    have ht : jsTruthy (some (encrypt c iv p)) = true := by simp [jsTruthy, hne]
    simp only [maskPostAccountNumber, ht, if_pos, Option.getD_some]
    rw [show decrypt c (encrypt c iv p) = p from by
      unfold decrypt encrypt
      rw [storedCiphertext_append _ _ hiv, c.dec_enc]]
  · intro c stored plain hlen hchars
    show ¬ List.IsInfix plain.data
      (if jsTruthy stored = true then
        "•••• •••• •••• " ++ sliceLast (decrypt c (stored.getD "")) 4
      else "").data
    by_cases htr : jsTruthy stored = true
    · rw [if_pos htr]
      exact not_infix_of_masked "•••• •••• •••• " _ plain hlen hchars (by decide)
        (sliceLast_length_le _ 4)
    · rw [if_neg htr]
      intro hinf
      have hlensub := hinf.sublist.length_le
      have hnil : (("" : String).data).length = 0 := rfl
      omega

/-- Witness for C6 (amended) at a concrete stored value and at a concrete
encrypted US account number. -/
theorem C6_masking_spec_witness :
    (maskGetAccountNumber (some "stored-value-1234") =
      "•••• •••• •••• " ++ sliceLast "stored-value-1234" 4 ∧
     maskGetRoutingNumber (some "stored-value-1234") =
      "••••••" ++ sliceLast "stored-value-1234" 3 ∧
     maskGetSortCode (some "stored-value-1234") =
      "••-••-" ++ sliceLast "stored-value-1234" 2 ∧
     maskGetIban (some "stored-value-1234") =
      sliceTo "stored-value-1234" 4 ++ "••••••••••••••••" ++
        sliceLast "stored-value-1234" 4) ∧
    maskPostAccountNumber demoCipher (some (encrypt demoCipher "0f1e" "123456789")) =
      "•••• •••• •••• " ++ sliceLast "123456789" 4 :=
  ⟨(C6_masking_spec ⟨"b", "u", "US", false, true, 0, 0, none, none, none, none,
      none⟩).1 "stored-value-1234" (by decide),
   ((C6_masking_spec ⟨"b", "u", "US", false, true, 0, 0, none, none, none, none,
      none⟩).2.2.2.2.1) demoCipher "0f1e" "123456789" (by decide)⟩

end Crowd
